import Mathlib

/-!
# Verification of the tavern-chat server

A shallow embedding of the tavern-chat Rust sources (`src/common.rs`,
`src/parser.rs`, `src/server.rs`, `src/npcs.rs`) together with proofs about
the command parser and the server actor's event handling.

Modelling conventions:
* Rust `u32` identifiers (`UserId`, `NpcId`) are `Nat`s; no arithmetic near
  the `u32` bound occurs in any modelled operation except `u32::parse`,
  which is modelled with its range check.
* The TCP write half of a client (`OwnedWriteHalf`) is abstracted by a
  boolean `writeOk`: a `to_client` write succeeds exactly when the flag is
  set.  Nothing in the server reads the bytes written, only the
  success/failure of a write, so this captures all control flow.
* A Rust panic (the `todo!()` arm for NPC routing) is modelled by `Option`:
  `none` is the panic/abort outcome, `some` the normal one.
* `Message.timestamp` (`SystemTime::now()`) and `Npc.last_active`
  (`Instant::now()`) are wall-clock values irrelevant to every claim and
  are omitted from the model.
-/

/-- Model of `MessageTone` from `common.rs`: the emotion paired with a message. -/
inductive MessageTone where
  | Said
  | Whispered
  | Yelled
  | Laughed
deriving DecidableEq, Repr

/-- Model of `ChatTarget` from `common.rs`; `UserId`/`NpcId` payloads are `Nat`. -/
inductive ChatTarget where
  | Global
  | User (id : Nat)
  | Npc (id : Nat)
deriving DecidableEq, Repr

/-- Model of `Message` from `common.rs` (timestamp omitted, see module comment).
`from_` models the Rust field `from` (`from` and `to` are Lean/Mathlib tokens; fields get a trailing underscore). -/
structure Message where
  from_ : Option ChatTarget
  to_ : ChatTarget
  content : String
  tone : MessageTone
deriving DecidableEq, Repr

/-- Model of `SystemNotification` from `common.rs`. -/
structure SystemNotification where
  to_ : Nat
  content : String
deriving DecidableEq, Repr

/-- Model of `ClientContext` from `common.rs`: cached state of a client. -/
structure ClientContext where
  current_target : ChatTarget := ChatTarget.Global
  tone : MessageTone := MessageTone.Said
deriving DecidableEq, Repr

/-- Model of `NpcState` from `npcs.rs`. -/
inductive NpcState where
  | Idle
  | Disabled
deriving DecidableEq, Repr

/-- Model of `Npc` from `npcs.rs` (`last_active : Instant` omitted). -/
structure Npc where
  name : String := "Unnamed"
  state : NpcState := NpcState.Idle
deriving DecidableEq, Repr

/-- Model of `Client` from `common.rs`.  The TCP write half is abstracted by
`writeOk`: a write on this connection succeeds iff the flag holds. -/
structure Client where
  writeOk : Bool
  context : ClientContext
deriving DecidableEq, Repr

/-- Model of `Event` from `common.rs`.  `NewClient` carries only the abstracted
write-success flag of the accepted connection (the `TcpStream` and peer
address have no further observable effect in the server). -/
inductive Event where
  | NewClient (writeOk : Bool)
  | DisconnectClient (id : Nat)
  | ReceiveUserMessage (from_ : Nat) (message_raw : String)
  | BroadcastMessage (message : Message)
  | ChangeTarget (id : Nat) (to_ : ChatTarget)
  | NotifyClient (n : SystemNotification)
  | Shutdown
deriving DecidableEq, Repr

/-- Model of `ServerError` from `common.rs`. -/
inductive ServerError where
  | TcpConnectionFailed (id : Nat)
  | InvalidMessageTarget (t : ChatTarget)
deriving DecidableEq, Repr

/-! ## String primitives

The Rust code uses `String::is_empty`, `str::starts_with('/')`,
`str::splitn(2, " ")`, `str::to_ascii_lowercase` and `str::parse::<u32>`.
They are modelled on the character list of a `String`, which is exactly
the semantics of the Rust operations on the code points involved. -/

/-- Rust `String::is_empty`. -/
def strIsEmpty (s : String) : Bool := s.data.isEmpty

/-- Rust `str::starts_with(c)` for a single character. -/
def strStartsWith (s : String) (c : Char) : Bool :=
  match s.data with
  | [] => false
  | a :: _ => a == c

/-- Split a character list at the first space: the part before it and the
part after it.  When no space occurs the second component is empty. -/
def splitAtSpace : List Char → List Char × List Char
  | [] => ([], [])
  | c :: cs =>
    if c = ' ' then ([], cs)
    else
      let p := splitAtSpace cs
      (c :: p.1, p.2)

/-- Rust `message_raw.splitn(2, " ")` followed by `get(0)` /
`get(1).unwrap_or("")`: command token and remainder. -/
def splitCmd (s : String) : String × String :=
  let p := splitAtSpace s.data
  (String.mk p.1, String.mk p.2)

/-- Rust `char::to_ascii_lowercase`. -/
def lowerChar (c : Char) : Char :=
  if 65 ≤ c.toNat ∧ c.toNat ≤ 90 then Char.ofNat (c.toNat + 32) else c

/-- Rust `str::to_ascii_lowercase`. -/
def lowerStr (s : String) : String := String.mk (s.data.map lowerChar)

/-- Rust `str::parse::<u32>`: an optional leading `+`, then one or more
ASCII digits, value below `2^32`. -/
def parseU32 (s : String) : Option Nat :=
  let t := if strStartsWith s '+' then s.data.tail else s.data
  if t ≠ [] ∧ t.all Char.isDigit then
    let n := t.foldl (fun acc c => acc * 10 + (c.toNat - 48)) 0
    if n < 4294967296 then some n else none
  else none

/-- Rendering of `Display` for `UserId` (`common.rs`). -/
def userDisplay (n : Nat) : String := Nat.repr n ++ "<User>"

/-- Rendering of `Display` for `NpcId` (`common.rs`). -/
def npcDisplay (n : Nat) : String := Nat.repr n ++ "<Npc>"

/-- Rendering of `Display` for `ChatTarget` (`common.rs`). -/
def targetDisplay : ChatTarget → String
  | ChatTarget.Global => "The World"
  | ChatTarget.User id => userDisplay id
  | ChatTarget.Npc id => npcDisplay id

/-- Rendering of `Display` for `MessageTone` (`common.rs`). -/
def toneWord : MessageTone → String
  | MessageTone.Said => "said"
  | MessageTone.Yelled => "yelled"
  | MessageTone.Laughed => "laughed"
  | MessageTone.Whispered => "whispered"

/-! ## The command parser (`parser.rs`)

`parse_incoming_message` in Rust sends events on `event_tx` and mutates the
borrowed `ClientContext`.  The embedding returns the updated context and
the list of sent events, in send order. -/

/-- Model of `say_something` from `parser.rs`: returns the updated context, the
events sent, and the optional reply string (the Rust return value). -/
def say_something (uid : Nat) (msg : String) (ctx : ClientContext)
    (new_tone : Option MessageTone) :
    ClientContext × List Event × Option String :=
  let tone := match new_tone with
    | some t => t
    | none => ctx.tone
  let ctx1 := match new_tone with
    | some t => { ctx with tone := t }
    | none => ctx
  let events :=
    if strIsEmpty msg then ([] : List Event)
    else
      [Event.BroadcastMessage
        { from_ := some (ChatTarget.User uid), to_ := ctx1.current_target,
          content := msg, tone := tone }]
  let reply := match ctx1.current_target with
    | ChatTarget.User id => some ("To " ++ userDisplay id ++ ": " ++ msg)
    | ChatTarget.Npc id => some ("To " ++ npcDisplay id ++ ": " ++ msg)
    | ChatTarget.Global => none
  (ctx1, events, reply)

/-- The command-dispatch `match` inside `parse_incoming_message`
(`parser.rs`), given the lowercased command token and the remainder.
Returns updated context, sent events, and the pending `reply`. -/
def dispatchCommand (uid : Nat) (command msg : String) (ctx : ClientContext) :
    ClientContext × List Event × Option String :=
  if command = "/say" ∨ command = "/s" then
    say_something uid msg ctx (some MessageTone.Said)
  else if command = "/yell" then
    say_something uid msg ctx (some MessageTone.Yelled)
  else if command = "/laugh" then
    say_something uid msg ctx (some MessageTone.Laughed)
  else if command = "/whisper" ∨ command = "/w" then
    say_something uid msg ctx (some MessageTone.Whispered)
  else if command = "/to_user" then
    match parseU32 msg with
    | some target_id =>
      (ctx, [Event.ChangeTarget uid (ChatTarget.User target_id)], none)
    | none => (ctx, [], some "Invalid target. please use /to_user <id>")
  else if command = "/to_npc" then
    match parseU32 msg with
    | some target_id =>
      (ctx, [Event.ChangeTarget uid (ChatTarget.Npc target_id)], none)
    | none => (ctx, [], some "Invalid target. please use /to_npc <id>")
  else if command = "/to_world" ∨ command = "/to_everyone" ∨ command = "/global" then
    (ctx, [Event.ChangeTarget uid ChatTarget.Global], none)
  else if command = "/wave" then
    -- Rust drops the returned reply of `say_something` here.
    let r := say_something uid
      ("You waved at " ++ targetDisplay ctx.current_target ++ ". Wassup?")
      ctx none
    (r.1, r.2.1, none)
  else if command = "/poke" then
    let r := say_something uid
      ("You poked " ++ targetDisplay ctx.current_target ++ ". Hey!")
      ctx none
    (r.1, r.2.1, none)
  else if command = "/lol" then
    let r := say_something uid "You laughed out loud. A ha HA!"
      ctx (some MessageTone.Laughed)
    (r.1, r.2.1, none)
  else if command = "/cry" then
    let r := say_something uid
      ("You cried on " ++ targetDisplay ctx.current_target
        ++ "\x27s shoulder. There there.")
      ctx none
    (r.1, r.2.1, none)
  else if command = "/dance" then
    let r := say_something uid "You danced on top of a table! What a jolly time!"
      ctx none
    (r.1, r.2.1, none)
  else if command = "/shutdown" then
    (ctx, [Event.Shutdown], none)
  else
    (ctx, [], some "Unknown command.")

/-- The reply event built at the end of `parse_incoming_message`:
`Message::new(None, User(from), format!("{reply}\n{tone} >"), None)`. -/
def replyEvent (uid : Nat) (r : String) (tone : MessageTone) : Event :=
  Event.BroadcastMessage
    { from_ := none, to_ := ChatTarget.User uid,
      content := r ++ "\n" ++ toneWord tone ++ " >",
      tone := MessageTone.Said }

/-- The `if let Some(reply)` tail of `parse_incoming_message`: append the
reply event (rendered against the context's tone after the command ran)
to the sent events. -/
def finishParse (uid : Nat) (step : ClientContext × List Event × Option String) :
    ClientContext × List Event :=
  match step.2.2 with
  | some r => (step.1, step.2.1 ++ [replyEvent uid r step.1.tone])
  | none => (step.1, step.2.1)

/-- Model of `parse_incoming_message` from `parser.rs`: updated context and the
events sent on `event_tx`, in order.  (The Rust function always returns
`Ok(())`; it has no error outcome to model.) -/
def parse_incoming_message (uid : Nat) (message_raw : String)
    (ctx : ClientContext) : ClientContext × List Event :=
  if strIsEmpty message_raw then (ctx, [])
  else
    finishParse uid
      (if strStartsWith message_raw '/' then
        let p := splitCmd message_raw
        dispatchCommand uid (lowerStr p.1) p.2 ctx
      else
        say_something uid message_raw ctx none)

/-! ## Association lists

`HashMap UserId Client` and `HashMap NpcId Npc` are modelled as
association lists with unique keys maintained by the operations below;
the iteration order of the Rust `HashMap` is arbitrary, and no claim
depends on it. -/

/-- Lookup, `HashMap::get`, on an association list. -/
def lookupA {α : Type} : List (Nat × α) → Nat → Option α
  | [], _ => none
  | (k2, v) :: rest, k => if k2 = k then some v else lookupA rest k

/-- Membership, `HashMap::contains_key`, on an association list. -/
def containsA {α : Type} (l : List (Nat × α)) (k : Nat) : Bool :=
  (lookupA l k).isSome

/-- Insertion, `HashMap::insert`, on an association list. -/
def insertA {α : Type} : List (Nat × α) → Nat → α → List (Nat × α)
  | [], k, v => [(k, v)]
  | (k2, v2) :: rest, k, v =>
    if k2 = k then (k, v) :: rest else (k2, v2) :: insertA rest k v

/-- Removal, `HashMap::remove`, on an association list. -/
def eraseA {α : Type} : List (Nat × α) → Nat → List (Nat × α)
  | [], _ => []
  | (k2, v2) :: rest, k => if k2 = k then rest else (k2, v2) :: eraseA rest k

/-- Mutation through `HashMap::get_mut`: apply `f` at key `k`. -/
def updateA {α : Type} : List (Nat × α) → Nat → (α → α) → List (Nat × α)
  | [], _, _ => []
  | (k2, v) :: rest, k, f =>
    if k2 = k then (k2, f v) :: updateA rest k f
    else (k2, v) :: updateA rest k f

/-! ## The server actor (`server.rs`) -/

/-- The constant `MESSAGE_HISTORY_LEN` from `server.rs`. -/
def MESSAGE_HISTORY_LEN : Nat := 100

/-- Model of `TavernServer` from `server.rs`.  The event channel endpoints are not
state; `shutdown_signal` models the level-triggered `watch` channel the
`Shutdown` handler fires (`true` once `shutdown_tx.send(())` ran). -/
structure TavernServer where
  message_log : List Message
  npcs : List (Nat × Npc)
  clients : List (Nat × Client)
  next_entity_id : Nat
  shutdown_signal : Bool
deriving DecidableEq, Repr

/-- Model of `TavernServer::new` from `server.rs`: every field `Default::default()`. -/
def TavernServer.new : TavernServer :=
  { message_log := [], npcs := [], clients := [], next_entity_id := 0,
    shutdown_signal := false }

/-- The history insertion at the top of `broadcast_message`:
`push_back`, then `pop_front` if the length exceeds the bound. -/
def pushLog (log : List Message) (m : Message) : List Message :=
  if (log ++ [m]).length > MESSAGE_HISTORY_LEN then (log ++ [m]).tail
  else log ++ [m]

/-- Rust derived `Debug` rendering of `UserId`. -/
def userIdDebug (n : Nat) : String := "UserId(" ++ Nat.repr n ++ ")"

/-- Rust derived `Debug` rendering of `NpcId`. -/
def npcIdDebug (n : Nat) : String := "NpcId(" ++ Nat.repr n ++ ")"

/-- Rust derived `Debug` rendering of `ChatTarget`. -/
def targetDebug : ChatTarget → String
  | ChatTarget.Global => "Global"
  | ChatTarget.User n => "User(" ++ userIdDebug n ++ ")"
  | ChatTarget.Npc n => "Npc(" ++ npcIdDebug n ++ ")"

/-- Rust derived `Debug` rendering of `ServerError`. -/
def serverErrorDebug : ServerError → String
  | ServerError.TcpConnectionFailed id =>
    "TcpConnectionFailed(" ++ userIdDebug id ++ ")"
  | ServerError.InvalidMessageTarget t =>
    "InvalidMessageTarget(" ++ targetDebug t ++ ")"

/-- The `SystemNotification` sent to a message sender on a delivery error:
`format!("Failed to send message: {:?}", e)`. -/
def failNotification (sender : Nat) (e : ServerError) : SystemNotification :=
  { to_ := sender, content := "Failed to send message: " ++ serverErrorDebug e }

/-- The `if let Err(e) = ...` tail of `broadcast_message`: notify the
sender iff the message came from a known client (`Some(User(sender))`). -/
def notifyForError (m : Message) (e : ServerError) : List Event :=
  match m.from_ with
  | some (ChatTarget.User sender) => [Event.NotifyClient (failNotification sender e)]
  | _ => []

/-- Model of `TavernServer::broadcast_message` from `server.rs`: push the message
into the bounded log, then deliver by target.  Returns the new state and
the events sent on `event_tx` (sender-failure notification first, then one
`DisconnectClient` per failed write, in table order), or `none` for the
`todo!()` panic on an `Npc` destination. -/
def broadcast_message (s : TavernServer) (m : Message) :
    Option (TavernServer × List Event) :=
  let s1 := { s with message_log := pushLog s.message_log m }
  match m.to_ with
  | ChatTarget.Global =>
    -- Per-client write failures are collected in `failed_client`; the
    -- match arm itself is `Ok(())`, so no sender notification here.
    let failed := (s.clients.filter (fun p => !p.2.writeOk)).map Prod.fst
    some (s1, failed.map Event.DisconnectClient)
  | ChatTarget.User id =>
    match lookupA s.clients id with
    | some c =>
      if c.writeOk then some (s1, [])
      else
        some (s1, notifyForError m (ServerError.TcpConnectionFailed id)
          ++ [Event.DisconnectClient id])
    | none => some (s1, notifyForError m (ServerError.InvalidMessageTarget m.to_))
  | ChatTarget.Npc _ => none

/-- The target-validity check of the `ChangeTarget` arm of
`TavernServer::run`: `Global` always, `User` iff in the client table,
`Npc` iff in the NPC table. -/
def target_valid (s : TavernServer) : ChatTarget → Bool
  | ChatTarget.Global => true
  | ChatTarget.User u => containsA s.clients u
  | ChatTarget.Npc n => containsA s.npcs n

/-- The `ChangeTarget` arm of `TavernServer::run`: overwrite the
requester's current target iff the target is valid and the requester is a
live client; otherwise leave the state untouched. -/
def change_target (s : TavernServer) (id : Nat) (to_ : ChatTarget) : TavernServer :=
  if target_valid s to_ && containsA s.clients id then
    { s with clients := (updateA s.clients id
        (fun c => { c with context := { c.context with current_target := to_ } })) }
  else s

/-- The final Global system message of the `Shutdown` handler. -/
def shutdownMessage : Message :=
  { from_ := none, to_ := ChatTarget.Global,
    content := "Server Shutdown! So long!", tone := MessageTone.Said }

/-- One iteration of the event loop in `TavernServer::run`: the new state,
the events the handler sent on `event_tx`, and whether the loop continues
(`false` exactly for the `Shutdown` arm's `break`).  `none` models a panic
inside the handler. -/
def handleEvent (s : TavernServer) : Event → Option (TavernServer × List Event × Bool)
  | Event.NewClient writeOk =>
    let id := s.next_entity_id
    some ({ s with
        next_entity_id := id + 1,
        clients := insertA s.clients id { writeOk := writeOk, context := {} } },
      [Event.NotifyClient { to_ := id, content := "Welcome to Tavern chat!" }], true)
  | Event.DisconnectClient id =>
    some ({ s with clients := eraseA s.clients id }, [], true)
  | Event.ReceiveUserMessage uid raw =>
    match lookupA s.clients uid with
    | some c =>
      let pr := parse_incoming_message uid raw c.context
      some ({ s with clients := (updateA s.clients uid
          (fun cl => { cl with context := pr.1 })) }, pr.2, true)
    | none => some (s, [], true)
  | Event.BroadcastMessage m =>
    match broadcast_message s m with
    | some r => some (r.1, r.2, true)
    | none => none
  | Event.ChangeTarget id t => some (change_target s id t, [], true)
  | Event.NotifyClient n =>
    match lookupA s.clients n.to_ with
    | some c =>
      if c.writeOk then some (s, [], true)
      else some (s, [Event.DisconnectClient n.to_], true)
    | none => some (s, [], true)
  | Event.Shutdown =>
    match broadcast_message s shutdownMessage with
    | some r =>
      some ({ r.1 with clients := [], shutdown_signal := true }, r.2, false)
    | none => none

/-- The event loop of `TavernServer::run`, fuel-bounded.  Handler-emitted
events join the same queue behind those already pending; the loop stops
on the `Shutdown` arm's `break` regardless of pending events.  `none`
models fuel exhaustion or a panic. -/
def run : Nat → TavernServer → List Event → Option TavernServer
  | _, s, [] => some s
  | 0, _, _ :: _ => none
  | fuel + 1, s, e :: rest =>
    match handleEvent s e with
    | some (s1, emitted, cont) =>
      if cont then run fuel s1 (rest ++ emitted) else some s1
    | none => none

/-! ## Derived definitions used by the statements below -/

/-- The chat broadcast `say_something` sends when the content is non-empty. -/
def chatEvent (uid : Nat) (t : ChatTarget) (msg : String) (tn : MessageTone) : Event :=
  Event.BroadcastMessage
    { from_ := some (ChatTarget.User uid), to_ := t, content := msg, tone := tn }

/-- Holds iff the event is a chat broadcast whose content is `raw`. -/
def hasContent (raw : String) : Event → Bool
  | Event.BroadcastMessage m => m.content == raw
  | _ => false

/-- The chat-producing `/say`-family commands and the tone each sets. -/
def sayCommands : List (String × MessageTone) :=
  [("/say", MessageTone.Said), ("/s", MessageTone.Said),
   ("/yell", MessageTone.Yelled), ("/laugh", MessageTone.Laughed),
   ("/whisper", MessageTone.Whispered), ("/w", MessageTone.Whispered)]

/-- The emote commands: canned text (a function of the current target) and
the tone override (`/lol` forces Laughed). -/
def emotes : List (String × (ChatTarget → String) × Option MessageTone) :=
  [("/wave", fun t => "You waved at " ++ targetDisplay t ++ ". Wassup?", none),
   ("/poke", fun t => "You poked " ++ targetDisplay t ++ ". Hey!", none),
   ("/lol", fun _ => "You laughed out loud. A ha HA!", some MessageTone.Laughed),
   ("/cry", fun t => "You cried on " ++ targetDisplay t ++ "\x27s shoulder. There there.", none),
   ("/dance", fun _ => "You danced on top of a table! What a jolly time!", none)]

/-- Holds iff the event is a system-authored broadcast (`from = None`),
the shape of every parser reply. -/
def isReplyBroadcast : Event → Bool
  | Event.BroadcastMessage m => m.from_.isNone
  | _ => false

/-- Holds iff the event is a `NotifyClient`. -/
def isNotifyEvent : Event → Bool
  | Event.NotifyClient _ => true
  | _ => false

/-! ## Helper lemmas -/

lemma mk_data (s : String) : String.mk s.data = s := rfl

lemma data_append3 (a b : String) :
    (a ++ " " ++ b).data = a.data ++ ' ' :: b.data := by
  rw [String.data_append, String.data_append]
  have h : (" " : String).data = [' '] := rfl
  rw [h, List.append_assoc]
  rfl

lemma splitAtSpace_no_space :
    ∀ (a : List Char), (∀ c ∈ a, c ≠ ' ') → splitAtSpace a = (a, []) := by
  intro a
  induction a with
  | nil => intro _; rfl
  | cons c cs ih =>
    intro h
    have hc : c ≠ ' ' := h c (List.mem_cons_self ..)
    simp [splitAtSpace, hc, ih fun d hd => h d (List.mem_cons_of_mem _ hd)]

lemma splitAtSpace_sep :
    ∀ (a b : List Char), (∀ c ∈ a, c ≠ ' ') → splitAtSpace (a ++ ' ' :: b) = (a, b) := by
  intro a
  induction a with
  | nil => intro b _; simp [splitAtSpace]
  | cons c cs ih =>
    intro b h
    have hc : c ≠ ' ' := h c (List.mem_cons_self ..)
    simp [splitAtSpace, hc, ih b fun d hd => h d (List.mem_cons_of_mem _ hd)]

lemma splitCmd_sep (cmd rest : String) (h : ∀ c ∈ cmd.data, c ≠ ' ') :
    splitCmd (cmd ++ " " ++ rest) = (cmd, rest) := by
  unfold splitCmd
  rw [data_append3, splitAtSpace_sep _ _ h]

lemma splitCmd_no_space (cmd : String) (h : ∀ c ∈ cmd.data, c ≠ ' ') :
    splitCmd cmd = (cmd, "") := by
  unfold splitCmd
  rw [splitAtSpace_no_space _ h]

lemma parse_slash_arg (uid : Nat) (cmd rest : String) (ctx : ClientContext)
    (h0 : strStartsWith cmd '/' = true) (h1 : ∀ c ∈ cmd.data, c ≠ ' ') :
    parse_incoming_message uid (cmd ++ " " ++ rest) ctx =
      finishParse uid (dispatchCommand uid (lowerStr cmd) rest ctx) := by
  obtain ⟨c, cs, hcmd⟩ : ∃ c cs, cmd.data = c :: cs := by
    rcases hc : cmd.data with _ | ⟨c, cs⟩
    · unfold strStartsWith at h0; rw [hc] at h0; simp at h0
    · exact ⟨c, cs, rfl⟩
  have hemp : strIsEmpty (cmd ++ " " ++ rest) = false := by
    simp [strIsEmpty, data_append3, hcmd]
  have hsw : strStartsWith (cmd ++ " " ++ rest) '/' = true := by
    unfold strStartsWith at h0 ⊢
    rw [data_append3, hcmd]
    rw [hcmd] at h0
    exact h0
  have hsc : splitCmd (cmd ++ " " ++ rest) = (cmd, rest) := splitCmd_sep _ _ h1
  simp [parse_incoming_message, hemp, hsw, hsc]

lemma parse_slash_noarg (uid : Nat) (cmd : String) (ctx : ClientContext)
    (h0 : strStartsWith cmd '/' = true) (h1 : ∀ c ∈ cmd.data, c ≠ ' ') :
    parse_incoming_message uid cmd ctx =
      finishParse uid (dispatchCommand uid (lowerStr cmd) "" ctx) := by
  obtain ⟨c, cs, hcmd⟩ : ∃ c cs, cmd.data = c :: cs := by
    rcases hc : cmd.data with _ | ⟨c, cs⟩
    · unfold strStartsWith at h0; rw [hc] at h0; simp at h0
    · exact ⟨c, cs, rfl⟩
  have hemp : strIsEmpty cmd = false := by simp [strIsEmpty, hcmd]
  have hsc : splitCmd cmd = (cmd, "") := splitCmd_no_space _ h1
  simp [parse_incoming_message, hemp, h0, hsc]

lemma dispatch_say (uid : Nat) (msg : String) (ctx : ClientContext) :
    dispatchCommand uid "/say" msg ctx = say_something uid msg ctx (some MessageTone.Said) := by
  simp [dispatchCommand]

lemma dispatch_s (uid : Nat) (msg : String) (ctx : ClientContext) :
    dispatchCommand uid "/s" msg ctx = say_something uid msg ctx (some MessageTone.Said) := by
  simp [dispatchCommand]

lemma dispatch_yell (uid : Nat) (msg : String) (ctx : ClientContext) :
    dispatchCommand uid "/yell" msg ctx = say_something uid msg ctx (some MessageTone.Yelled) := by
  simp [dispatchCommand]

lemma dispatch_laugh (uid : Nat) (msg : String) (ctx : ClientContext) :
    dispatchCommand uid "/laugh" msg ctx = say_something uid msg ctx (some MessageTone.Laughed) := by
  simp [dispatchCommand]

lemma dispatch_whisper (uid : Nat) (msg : String) (ctx : ClientContext) :
    dispatchCommand uid "/whisper" msg ctx = say_something uid msg ctx (some MessageTone.Whispered) := by
  simp [dispatchCommand]

lemma dispatch_w (uid : Nat) (msg : String) (ctx : ClientContext) :
    dispatchCommand uid "/w" msg ctx = say_something uid msg ctx (some MessageTone.Whispered) := by
  simp [dispatchCommand]

lemma finish_say_some_global (uid : Nat) (msg : String) (ctx : ClientContext)
    (tn : MessageTone) (h : ctx.current_target = ChatTarget.Global)
    (hne : strIsEmpty msg = false) :
    finishParse uid (say_something uid msg ctx (some tn)) =
      ({ ctx with tone := tn }, [chatEvent uid ChatTarget.Global msg tn]) := by
  simp [say_something, finishParse, chatEvent, h, hne]

lemma finish_say_some_user (uid : Nat) (msg : String) (ctx : ClientContext)
    (tn : MessageTone) (x : Nat) (h : ctx.current_target = ChatTarget.User x)
    (hne : strIsEmpty msg = false) :
    finishParse uid (say_something uid msg ctx (some tn)) =
      ({ ctx with tone := tn },
        [chatEvent uid (ChatTarget.User x) msg tn,
         replyEvent uid ("To " ++ userDisplay x ++ ": " ++ msg) tn]) := by
  simp [say_something, finishParse, chatEvent, h, hne]

lemma finish_say_some_npc (uid : Nat) (msg : String) (ctx : ClientContext)
    (tn : MessageTone) (x : Nat) (h : ctx.current_target = ChatTarget.Npc x)
    (hne : strIsEmpty msg = false) :
    finishParse uid (say_something uid msg ctx (some tn)) =
      ({ ctx with tone := tn },
        [chatEvent uid (ChatTarget.Npc x) msg tn,
         replyEvent uid ("To " ++ npcDisplay x ++ ": " ++ msg) tn]) := by
  simp [say_something, finishParse, chatEvent, h, hne]

lemma reply_content_ne (d w raw : String) :
    ("To " ++ d ++ ": " ++ raw ++ "\n" ++ w ++ " >" : String) ≠ raw := by
  intro h
  have hlen := congrArg String.length h
  have h1 : ("To " : String).length = 3 := rfl
  have h2 : (": " : String).length = 2 := rfl
  have h3 : ("\n" : String).length = 1 := rfl
  have h4 : (" >" : String).length = 2 := rfl
  simp [String.length_append, h1, h2, h3, h4] at hlen
  omega

lemma finish_say_none_global (uid : Nat) (msg : String) (ctx : ClientContext)
    (h : ctx.current_target = ChatTarget.Global) (hne : strIsEmpty msg = false) :
    finishParse uid (say_something uid msg ctx none) =
      (ctx, [chatEvent uid ChatTarget.Global msg ctx.tone]) := by
  simp [say_something, finishParse, chatEvent, h, hne]

lemma finish_say_none_user (uid : Nat) (msg : String) (ctx : ClientContext)
    (x : Nat) (h : ctx.current_target = ChatTarget.User x) (hne : strIsEmpty msg = false) :
    finishParse uid (say_something uid msg ctx none) =
      (ctx, [chatEvent uid (ChatTarget.User x) msg ctx.tone,
             replyEvent uid ("To " ++ userDisplay x ++ ": " ++ msg) ctx.tone]) := by
  simp [say_something, finishParse, chatEvent, h, hne]

lemma finish_say_none_npc (uid : Nat) (msg : String) (ctx : ClientContext)
    (x : Nat) (h : ctx.current_target = ChatTarget.Npc x) (hne : strIsEmpty msg = false) :
    finishParse uid (say_something uid msg ctx none) =
      (ctx, [chatEvent uid (ChatTarget.Npc x) msg ctx.tone,
             replyEvent uid ("To " ++ npcDisplay x ++ ": " ++ msg) ctx.tone]) := by
  simp [say_something, finishParse, chatEvent, h, hne]

lemma strIsEmpty_concat (a b : String) (h : strIsEmpty a = false) :
    strIsEmpty (a ++ b) = false := by
  unfold strIsEmpty at *
  rw [String.data_append]
  rcases hd : a.data with _ | ⟨c, cs⟩
  · rw [hd] at h; simp at h
  · simp

lemma say_family_core (uid : Nat) (cmd : String) (tn : MessageTone) (rest : String)
    (ctx : ClientContext)
    (hd : dispatchCommand uid (lowerStr cmd) rest ctx = say_something uid rest ctx (some tn))
    (hsw : strStartsWith cmd '/' = true) (hns : ∀ c ∈ cmd.data, c ≠ ' ')
    (hne : strIsEmpty rest = false) :
    (ctx.current_target = ChatTarget.Global →
      (parse_incoming_message uid (cmd ++ " " ++ rest) ctx).2 =
        [chatEvent uid ChatTarget.Global rest tn]) ∧
    (∀ x, ctx.current_target = ChatTarget.User x →
      (parse_incoming_message uid (cmd ++ " " ++ rest) ctx).2 =
        [chatEvent uid (ChatTarget.User x) rest tn,
         replyEvent uid ("To " ++ userDisplay x ++ ": " ++ rest) tn]) ∧
    (∀ x, ctx.current_target = ChatTarget.Npc x →
      (parse_incoming_message uid (cmd ++ " " ++ rest) ctx).2 =
        [chatEvent uid (ChatTarget.Npc x) rest tn,
         replyEvent uid ("To " ++ npcDisplay x ++ ": " ++ rest) tn]) := by
  rw [parse_slash_arg uid cmd rest ctx hsw hns, hd]
  refine ⟨?_, ?_, ?_⟩
  · intro h; rw [finish_say_some_global uid rest ctx tn h hne]
  · intro x h; rw [finish_say_some_user uid rest ctx tn x h hne]
  · intro x h; rw [finish_say_some_npc uid rest ctx tn x h hne]

lemma emote_core (uid : Nat) (cmd : String) (ctx : ClientContext)
    (text : ChatTarget → String) (nt : Option MessageTone)
    (hd : dispatchCommand uid (lowerStr cmd) "" ctx =
      ((say_something uid (text ctx.current_target) ctx nt).1,
       (say_something uid (text ctx.current_target) ctx nt).2.1, none))
    (hsw : strStartsWith cmd '/' = true) (hns : ∀ c ∈ cmd.data, c ≠ ' ')
    (hne : strIsEmpty (text ctx.current_target) = false) :
    (parse_incoming_message uid cmd ctx).2 =
      [chatEvent uid ctx.current_target (text ctx.current_target) (nt.getD ctx.tone)] := by
  rw [parse_slash_noarg uid cmd ctx hsw hns, hd]
  rcases nt with _ | t
  · simp [say_something, finishParse, chatEvent, hne]
  · simp [say_something, finishParse, chatEvent, hne]

lemma say_something_events_2_1 (uid : Nat) (msg : String) (ctx : ClientContext)
    (nt : Option MessageTone) :
    (say_something uid msg ctx nt).2.1 =
      if strIsEmpty msg then []
      else [chatEvent uid (say_something uid msg ctx nt).1.current_target msg
        ((say_something uid msg ctx nt).1.tone)] := by
  rcases nt with _ | t <;> rcases hm : strIsEmpty msg with _ | _ <;>
    simp [say_something, hm, chatEvent]

lemma say_something_events (uid : Nat) (msg : String) (ctx : ClientContext)
    (nt : Option MessageTone) :
    ∀ e ∈ (say_something uid msg ctx nt).2.1, isReplyBroadcast e = false := by
  intro e he
  rw [say_something_events_2_1] at he
  rcases hm : strIsEmpty msg with _ | _ <;> rw [hm] at he <;> simp at he
  rcases he with rfl
  simp [isReplyBroadcast, chatEvent]

lemma dispatch_events (uid : Nat) (command msg : String) (ctx : ClientContext) :
    ∀ e ∈ (dispatchCommand uid command msg ctx).2.1, isReplyBroadcast e = false := by
  unfold dispatchCommand
  by_cases h1 : command = "/say" ∨ command = "/s"
  · rw [if_pos h1]; exact say_something_events uid msg ctx _
  rw [if_neg h1]
  by_cases h2 : command = "/yell"
  · rw [if_pos h2]; exact say_something_events uid msg ctx _
  rw [if_neg h2]
  by_cases h3 : command = "/laugh"
  · rw [if_pos h3]; exact say_something_events uid msg ctx _
  rw [if_neg h3]
  by_cases h4 : command = "/whisper" ∨ command = "/w"
  · rw [if_pos h4]; exact say_something_events uid msg ctx _
  rw [if_neg h4]
  by_cases h5 : command = "/to_user"
  · rw [if_pos h5]
    rcases hpu : parseU32 msg with _ | n <;> simp [hpu, isReplyBroadcast]
  rw [if_neg h5]
  by_cases h6 : command = "/to_npc"
  · rw [if_pos h6]
    rcases hpu : parseU32 msg with _ | n <;> simp [hpu, isReplyBroadcast]
  rw [if_neg h6]
  by_cases h7 : command = "/to_world" ∨ command = "/to_everyone" ∨ command = "/global"
  · rw [if_pos h7]; simp [isReplyBroadcast]
  rw [if_neg h7]
  by_cases h8 : command = "/wave"
  · rw [if_pos h8]
    show ∀ e ∈ (say_something uid
      ("You waved at " ++ targetDisplay ctx.current_target ++ ". Wassup?") ctx none).2.1,
      isReplyBroadcast e = false
    exact say_something_events uid _ ctx _
  rw [if_neg h8]
  by_cases h9 : command = "/poke"
  · rw [if_pos h9]
    show ∀ e ∈ (say_something uid
      ("You poked " ++ targetDisplay ctx.current_target ++ ". Hey!") ctx none).2.1,
      isReplyBroadcast e = false
    exact say_something_events uid _ ctx _
  rw [if_neg h9]
  by_cases h10 : command = "/lol"
  · rw [if_pos h10]
    show ∀ e ∈ (say_something uid "You laughed out loud. A ha HA!" ctx
      (some MessageTone.Laughed)).2.1, isReplyBroadcast e = false
    exact say_something_events uid _ ctx _
  rw [if_neg h10]
  by_cases h11 : command = "/cry"
  · rw [if_pos h11]
    show ∀ e ∈ (say_something uid
      ("You cried on " ++ targetDisplay ctx.current_target ++ "\x27s shoulder. There there.")
      ctx none).2.1, isReplyBroadcast e = false
    exact say_something_events uid _ ctx _
  rw [if_neg h11]
  by_cases h12 : command = "/dance"
  · rw [if_pos h12]
    show ∀ e ∈ (say_something uid "You danced on top of a table! What a jolly time!"
      ctx none).2.1, isReplyBroadcast e = false
    exact say_something_events uid _ ctx _
  rw [if_neg h12]
  by_cases h13 : command = "/shutdown"
  · rw [if_pos h13]; simp [isReplyBroadcast]
  rw [if_neg h13]
  simp

lemma parse_to_user_bad (uid : Nat) (ctx : ClientContext) :
    parse_incoming_message uid "/to_user abc" ctx =
      (ctx, [replyEvent uid "Invalid target. please use /to_user <id>" ctx.tone]) := rfl

lemma parse_to_npc_bad (uid : Nat) (ctx : ClientContext) :
    parse_incoming_message uid "/to_npc abc" ctx =
      (ctx, [replyEvent uid "Invalid target. please use /to_npc <id>" ctx.tone]) := rfl

lemma parse_unknown (uid : Nat) (ctx : ClientContext) :
    parse_incoming_message uid "/frobnicate" ctx =
      (ctx, [replyEvent uid "Unknown command." ctx.tone]) := rfl

lemma broadcast_message_user (s : TavernServer) (m : Message) (u : Nat)
    (hu : m.to_ = ChatTarget.User u) :
    ∃ evs, broadcast_message s m =
      some ({ s with message_log := pushLog s.message_log m }, evs) := by
  rcases hc : lookupA s.clients u with _ | c
  · refine ⟨notifyForError m (ServerError.InvalidMessageTarget (ChatTarget.User u)), ?_⟩
    simp [broadcast_message, hu, hc]
  · rcases hw : c.writeOk with _ | _
    · refine ⟨notifyForError m (ServerError.TcpConnectionFailed u)
        ++ [Event.DisconnectClient u], ?_⟩
      simp [broadcast_message, hu, hc, hw]
    · refine ⟨[], ?_⟩
      simp [broadcast_message, hu, hc, hw]

lemma lookupA_updateA_self {α : Type} (l : List (Nat × α)) (k : Nat) (f : α → α) :
    lookupA (updateA l k f) k = (lookupA l k).map f := by
  induction l with
  | nil => rfl
  | cons p rest ih =>
    rcases p with ⟨k2, v⟩
    by_cases hk : k2 = k
    · subst hk; simp [updateA, lookupA]
    · simp [updateA, lookupA, hk, ih]

lemma lookupA_updateA_ne {α : Type} (l : List (Nat × α)) (k j : Nat) (f : α → α)
    (h : j ≠ k) : lookupA (updateA l k f) j = lookupA l j := by
  induction l with
  | nil => rfl
  | cons p rest ih =>
    rcases p with ⟨k2, v⟩
    by_cases hk : k2 = k
    · subst hk
      simp [updateA, lookupA, Ne.symm h, ih]
    · by_cases hj : k2 = j
      · subst hj; simp [updateA, lookupA, hk]
      · simp [updateA, lookupA, hk, hj, ih]

lemma broadcast_message_state (s : TavernServer) (m : Message) (s' : TavernServer)
    (evs : List Event) (h : broadcast_message s m = some (s', evs)) :
    s' = { s with message_log := pushLog s.message_log m } := by
  rcases hto : m.to_ with _ | u | n
  · simp [broadcast_message, hto] at h
    exact h.1.symm
  · rcases hc : lookupA s.clients u with _ | c
    · simp [broadcast_message, hto, hc] at h
      exact h.1.symm
    · rcases hw : c.writeOk with _ | _ <;> simp [broadcast_message, hto, hc, hw] at h <;>
        exact h.1.symm
  · simp [broadcast_message, hto] at h

lemma pushLog_le (log : List Message) (m : Message)
    (h : log.length ≤ MESSAGE_HISTORY_LEN) :
    (pushLog log m).length ≤ MESSAGE_HISTORY_LEN := by
  unfold MESSAGE_HISTORY_LEN at h
  unfold pushLog MESSAGE_HISTORY_LEN
  split_ifs with hgt
  · simp only [List.length_tail, List.length_append, List.length_singleton]
    omega
  · simp only [List.length_append, List.length_singleton]
    simp only [List.length_append, List.length_singleton] at hgt
    omega

lemma pushLog_at_cap (log : List Message) (m : Message)
    (h : log.length = MESSAGE_HISTORY_LEN) :
    pushLog log m = log.tail ++ [m] ∧
      (pushLog log m).length = MESSAGE_HISTORY_LEN := by
  rcases log with _ | ⟨a, t⟩
  · simp [MESSAGE_HISTORY_LEN] at h
  · have hgt : ((a :: t) ++ [m]).length > MESSAGE_HISTORY_LEN := by
      simp [List.length_append] at h ⊢
      omega
    constructor
    · unfold pushLog
      rw [if_pos hgt]
      simp
    · unfold pushLog
      rw [if_pos hgt]
      simp [List.length_append] at h ⊢
      omega

lemma notifyForError_nil (m : Message) (e : ServerError)
    (h : ∀ x, m.from_ ≠ some (ChatTarget.User x)) : notifyForError m e = [] := by
  rcases hf : m.from_ with _ | t
  · simp [notifyForError, hf]
  · rcases t with _ | x | x
    · simp [notifyForError, hf]
    · exact absurd hf (h x)
    · simp [notifyForError, hf]

lemma handleEvent_npcs (s : TavernServer) (e : Event) (s' : TavernServer)
    (em : List Event) (cont : Bool) (h : handleEvent s e = some (s', em, cont)) :
    s'.npcs = s.npcs := by
  rcases e with wOk | id | ⟨uid, raw⟩ | m | ⟨id, t⟩ | n | _
  · simp [handleEvent] at h
    rw [← h.1]
  · simp [handleEvent] at h
    rw [← h.1]
  · rcases hc : lookupA s.clients uid with _ | c <;> simp [handleEvent, hc] at h <;>
      rw [← h.1]
  · rcases hb : broadcast_message s m with _ | r
    · simp [handleEvent, hb] at h
    · simp [handleEvent, hb] at h
      rw [← h.1, broadcast_message_state s m r.1 r.2 (by rw [hb])]
  · simp [handleEvent] at h
    rw [← h.1]
    unfold change_target
    split_ifs <;> rfl
  · rcases hc : lookupA s.clients n.to_ with _ | c
    · simp [handleEvent, hc] at h
      rw [← h.1]
    · rcases hw : c.writeOk with _ | _ <;> simp [handleEvent, hc, hw] at h <;> rw [← h.1]
  · rcases hb : broadcast_message s shutdownMessage with _ | r
    · simp [handleEvent, hb] at h
    · simp [handleEvent, hb] at h
      rw [← h.1]
      have := broadcast_message_state s shutdownMessage r.1 r.2 (by rw [hb])
      rw [this]

lemma run_npcs : ∀ (fuel : Nat) (s : TavernServer) (evs : List Event) (s' : TavernServer),
    run fuel s evs = some s' → s'.npcs = s.npcs := by
  intro fuel
  induction fuel with
  | zero =>
    intro s evs s' h
    rcases evs with _ | ⟨e, rest⟩
    · simp [run] at h
      rw [← h]
    · simp [run] at h
  | succ n ih =>
    intro s evs s' h
    rcases evs with _ | ⟨e, rest⟩
    · simp [run] at h
      rw [← h]
    · unfold run at h
      rcases hh : handleEvent s e with _ | ⟨s1, em, cont⟩
      · rw [hh] at h; simp at h
      · rw [hh] at h
        rcases cont with _ | _
        · simp at h
          rw [← h]
          exact handleEvent_npcs s e s1 em false hh
        · simp at h
          exact (ih s1 (rest ++ em) s' h).trans (handleEvent_npcs s e s1 em true hh)

/-! ## The claims -/

/-- C1 counterexample: a concrete `BroadcastMessage` whose destination is
`Npc(0)` drives `broadcast_message` into the `todo!()` arm, i.e. the
modelled panic outcome `none` — no non-fatal error report is produced, so
the claim that this path \"reports a non-fatal error and never panics or
aborts the process\" is false at this input. -/
theorem claim_C1_counterexample :
    broadcast_message TavernServer.new
      { from_ := none, to_ := ChatTarget.Npc 0, content := "Hello?",
        tone := MessageTone.Said } = none := rfl

/-- C1 (amended): for every `BroadcastMessage` event whose message
destination is `Npc(id)`, the Server Actor's `broadcast_message` reaches
the `todo!()` stub and panics, aborting the process (modelled as `none`);
no error is reported. -/
theorem claim_C1_amended (s : TavernServer) (m : Message) (n : Nat)
    (h : m.to_ = ChatTarget.Npc n) : broadcast_message s m = none := by
  simp [broadcast_message, h]

/-- C1 witness: the amended theorem applied to a concrete server state and
a concrete `Npc`-addressed message. -/
theorem claim_C1_witness :
    ({ from_ := some (ChatTarget.User 1), to_ := ChatTarget.Npc 3,
        content := "Nice tavern.", tone := MessageTone.Whispered } : Message).to_ =
      ChatTarget.Npc 3 ∧
    broadcast_message
      { message_log := [], npcs := [], clients := [(1, { writeOk := true, context := {} })],
        next_entity_id := 2, shutdown_signal := false }
      { from_ := some (ChatTarget.User 1), to_ := ChatTarget.Npc 3,
        content := "Nice tavern.", tone := MessageTone.Whispered } = none :=
  ⟨rfl, claim_C1_amended _ _ 3 rfl⟩

/-- C2 counterexample: a Global broadcast from the known sender `User 0`
to a table in which client 1's write fails produces exactly
`[DisconnectClient 1]` — no `NotifyClient` failure report to the sender —
so the claim does not hold for Global destinations. -/
theorem claim_C2_counterexample :
    broadcast_message
        { message_log := [], npcs := [],
          clients := [(0, { writeOk := true, context := {} }),
                      (1, { writeOk := false, context := {} })],
          next_entity_id := 2, shutdown_signal := false }
        { from_ := some (ChatTarget.User 0), to_ := ChatTarget.Global,
          content := "hi all", tone := MessageTone.Said } =
      some ({ message_log :=
                [{ from_ := some (ChatTarget.User 0), to_ := ChatTarget.Global,
                   content := "hi all", tone := MessageTone.Said }],
              npcs := [],
              clients := [(0, { writeOk := true, context := {} }),
                          (1, { writeOk := false, context := {} })],
              next_entity_id := 2, shutdown_signal := false },
            [Event.DisconnectClient 1]) ∧
    List.filter isNotifyEvent [Event.DisconnectClient 1] = [] := by
  exact ⟨rfl, rfl⟩

/-- C2 (amended): for `User`-targeted messages, a delivery error (absent
addressee, or write failure) with a known sending client `Some(User(s))`
makes the actor send `s` a failure `SystemNotification` (first, before the
disconnect of the failed addressee); a message without a known user sender
produces no report to anyone; a Global broadcast never produces a sender
report even when some client's write fails — the failed clients are only
queued for disconnection. -/
theorem claim_C2_amended :
    (∀ (s : TavernServer) (m : Message) (uid sender : Nat),
      m.to_ = ChatTarget.User uid → m.from_ = some (ChatTarget.User sender) →
      lookupA s.clients uid = none →
      broadcast_message s m =
        some ({ s with message_log := pushLog s.message_log m },
          [Event.NotifyClient (failNotification sender
            (ServerError.InvalidMessageTarget (ChatTarget.User uid)))])) ∧
    (∀ (s : TavernServer) (m : Message) (uid sender : Nat) (c : Client),
      m.to_ = ChatTarget.User uid → m.from_ = some (ChatTarget.User sender) →
      lookupA s.clients uid = some c → c.writeOk = false →
      broadcast_message s m =
        some ({ s with message_log := pushLog s.message_log m },
          [Event.NotifyClient (failNotification sender (ServerError.TcpConnectionFailed uid)),
           Event.DisconnectClient uid])) ∧
    (∀ (s : TavernServer) (m : Message) (s' : TavernServer) (evs : List Event),
      (∀ x, m.from_ ≠ some (ChatTarget.User x)) →
      broadcast_message s m = some (s', evs) →
      ∀ nt, Event.NotifyClient nt ∉ evs) ∧
    (∀ (s : TavernServer) (m : Message) (s' : TavernServer) (evs : List Event),
      m.to_ = ChatTarget.Global →
      broadcast_message s m = some (s', evs) →
      ∀ nt, Event.NotifyClient nt ∉ evs) := by
  refine ⟨?_, ?_, ?_, ?_⟩
  · intro s m uid sender hto hfrom hlk
    simp [broadcast_message, hto, hlk, notifyForError, hfrom]
  · intro s m uid sender c hto hfrom hlk hw
    simp [broadcast_message, hto, hlk, hw, notifyForError, hfrom]
  · intro s m s' evs hfrom hb nt
    rcases hto : m.to_ with _ | u | n
    · simp [broadcast_message, hto] at hb
      rcases hb with ⟨-, rfl⟩
      simp
    · rcases hc : lookupA s.clients u with _ | c
      · simp [broadcast_message, hto, hc, notifyForError_nil m _ hfrom] at hb
        rcases hb with ⟨-, rfl⟩
        simp
      · rcases hw : c.writeOk with _ | _
        · simp [broadcast_message, hto, hc, hw, notifyForError_nil m _ hfrom] at hb
          rcases hb with ⟨-, rfl⟩
          simp
        · simp [broadcast_message, hto, hc, hw] at hb
          rcases hb with ⟨-, rfl⟩
          simp
    · simp [broadcast_message, hto] at hb
  · intro s m s' evs hto hb nt
    simp [broadcast_message, hto] at hb
    rcases hb with ⟨-, rfl⟩
    simp

/-- C2 witness: the amended theorem's write-failure case applied to a
concrete state and message. -/
theorem claim_C2_witness :
    lookupA
        ([(4, { writeOk := false, context := {} })] : List (Nat × Client)) 4 =
      some { writeOk := false, context := {} } ∧
    broadcast_message
      { message_log := [], npcs := [],
        clients := [(4, { writeOk := false, context := {} })],
        next_entity_id := 5, shutdown_signal := false }
      { from_ := some (ChatTarget.User 9), to_ := ChatTarget.User 4,
        content := "psst", tone := MessageTone.Whispered } =
      some ({ message_log :=
                [{ from_ := some (ChatTarget.User 9), to_ := ChatTarget.User 4,
                   content := "psst", tone := MessageTone.Whispered }],
              npcs := [],
              clients := [(4, { writeOk := false, context := {} })],
              next_entity_id := 5, shutdown_signal := false },
            [Event.NotifyClient (failNotification 9 (ServerError.TcpConnectionFailed 4)),
             Event.DisconnectClient 4]) := by
  refine ⟨rfl, ?_⟩
  have h := claim_C2_amended.2.1
    { message_log := [], npcs := [],
      clients := [(4, { writeOk := false, context := {} })],
      next_entity_id := 5, shutdown_signal := false }
    { from_ := some (ChatTarget.User 9), to_ := ChatTarget.User 4,
      content := "psst", tone := MessageTone.Whispered }
    4 9 { writeOk := false, context := {} } rfl rfl rfl rfl
  exact h

/-- C3 counterexample: the emote `/wave`, parsed while the current target
is `User 5`, emits exactly one event (the broadcast) and no private
acknowledgement — not the two events the claim requires: the Rust emote
arms drop the reply returned by `say_something`. -/
theorem claim_C3_counterexample :
    parse_incoming_message 0 "/wave"
        { current_target := ChatTarget.User 5, tone := MessageTone.Said } =
      ({ current_target := ChatTarget.User 5, tone := MessageTone.Said },
       [Event.BroadcastMessage
          { from_ := some (ChatTarget.User 0), to_ := ChatTarget.User 5,
            content := "You waved at 5<User>. Wassup?", tone := MessageTone.Said }]) ∧
    (parse_incoming_message 0 "/wave"
        { current_target := ChatTarget.User 5, tone := MessageTone.Said }).2.length ≠ 2 := by
  refine ⟨by decide, by decide⟩

/-- C3 (amended): a `/say`-family command (`/say`, `/s`, `/yell`,
`/laugh`, `/whisper`, `/w`) with non-empty remainder emits exactly two
events when the current target is `User(x)` or `Npc(x)` — the broadcast,
then the acknowledgement \"To <target>: <text>\" addressed back to the
sender — and exactly one event (the broadcast) when the target is Global;
the emotes (`/wave`, `/poke`, `/lol`, `/cry`, `/dance`) emit exactly one
event, the broadcast, for every current target, their acknowledgement
being computed but discarded. -/
theorem claim_C3_amended :
    (∀ p ∈ sayCommands, ∀ (uid : Nat) (rest : String) (ctx : ClientContext),
      strIsEmpty rest = false →
      (ctx.current_target = ChatTarget.Global →
        (parse_incoming_message uid (p.1 ++ " " ++ rest) ctx).2 =
          [chatEvent uid ChatTarget.Global rest p.2]) ∧
      (∀ x, ctx.current_target = ChatTarget.User x →
        (parse_incoming_message uid (p.1 ++ " " ++ rest) ctx).2 =
          [chatEvent uid (ChatTarget.User x) rest p.2,
           replyEvent uid ("To " ++ userDisplay x ++ ": " ++ rest) p.2]) ∧
      (∀ x, ctx.current_target = ChatTarget.Npc x →
        (parse_incoming_message uid (p.1 ++ " " ++ rest) ctx).2 =
          [chatEvent uid (ChatTarget.Npc x) rest p.2,
           replyEvent uid ("To " ++ npcDisplay x ++ ": " ++ rest) p.2])) ∧
    (∀ q ∈ emotes, ∀ (uid : Nat) (ctx : ClientContext),
      (parse_incoming_message uid q.1 ctx).2 =
        [chatEvent uid ctx.current_target (q.2.1 ctx.current_target)
          (q.2.2.getD ctx.tone)]) := by
  constructor
  · intro p hp uid rest ctx hne
    fin_cases hp
    · exact say_family_core uid "/say" MessageTone.Said rest ctx
        (by rw [(by decide : lowerStr "/say" = "/say")]; exact dispatch_say uid rest ctx)
        (by decide) (by decide) hne
    · exact say_family_core uid "/s" MessageTone.Said rest ctx
        (by rw [(by decide : lowerStr "/s" = "/s")]; exact dispatch_s uid rest ctx)
        (by decide) (by decide) hne
    · exact say_family_core uid "/yell" MessageTone.Yelled rest ctx
        (by rw [(by decide : lowerStr "/yell" = "/yell")]; exact dispatch_yell uid rest ctx)
        (by decide) (by decide) hne
    · exact say_family_core uid "/laugh" MessageTone.Laughed rest ctx
        (by rw [(by decide : lowerStr "/laugh" = "/laugh")]; exact dispatch_laugh uid rest ctx)
        (by decide) (by decide) hne
    · exact say_family_core uid "/whisper" MessageTone.Whispered rest ctx
        (by rw [(by decide : lowerStr "/whisper" = "/whisper")]; exact dispatch_whisper uid rest ctx)
        (by decide) (by decide) hne
    · exact say_family_core uid "/w" MessageTone.Whispered rest ctx
        (by rw [(by decide : lowerStr "/w" = "/w")]; exact dispatch_w uid rest ctx)
        (by decide) (by decide) hne
  · intro q hq uid ctx
    fin_cases hq
    · exact emote_core uid "/wave" ctx
        (fun t => "You waved at " ++ targetDisplay t ++ ". Wassup?") none
        (by rw [(by decide : lowerStr "/wave" = "/wave")]; simp [dispatchCommand])
        (by decide) (by decide)
        (strIsEmpty_concat _ _ (strIsEmpty_concat _ _ (by decide)))
    · exact emote_core uid "/poke" ctx
        (fun t => "You poked " ++ targetDisplay t ++ ". Hey!") none
        (by rw [(by decide : lowerStr "/poke" = "/poke")]; simp [dispatchCommand])
        (by decide) (by decide)
        (strIsEmpty_concat _ _ (strIsEmpty_concat _ _ (by decide)))
    · exact emote_core uid "/lol" ctx
        (fun _ => "You laughed out loud. A ha HA!") (some MessageTone.Laughed)
        (by rw [(by decide : lowerStr "/lol" = "/lol")]; simp [dispatchCommand])
        (by decide) (by decide)
        (by show strIsEmpty "You laughed out loud. A ha HA!" = false; decide)
    · exact emote_core uid "/cry" ctx
        (fun t => "You cried on " ++ targetDisplay t ++ "\x27s shoulder. There there.") none
        (by rw [(by decide : lowerStr "/cry" = "/cry")]; simp [dispatchCommand])
        (by decide) (by decide)
        (strIsEmpty_concat _ _ (strIsEmpty_concat _ _ (by decide)))
    · exact emote_core uid "/dance" ctx
        (fun _ => "You danced on top of a table! What a jolly time!") none
        (by rw [(by decide : lowerStr "/dance" = "/dance")]; simp [dispatchCommand])
        (by decide) (by decide)
        (by show strIsEmpty "You danced on top of a table! What a jolly time!" = false; decide)

/-- C3 witness: the amended theorem applied to `/yell hi` at target
`User 3` (two events) and to `/wave` at target Global (one event). -/
theorem claim_C3_witness :
    (("/yell", MessageTone.Yelled) ∈ sayCommands ∧ strIsEmpty "hi" = false ∧
      (parse_incoming_message 7 ("/yell" ++ " " ++ "hi")
          { current_target := ChatTarget.User 3, tone := MessageTone.Said }).2 =
        [chatEvent 7 (ChatTarget.User 3) "hi" MessageTone.Yelled,
         replyEvent 7 ("To " ++ userDisplay 3 ++ ": " ++ "hi") MessageTone.Yelled]) ∧
    (("/wave", fun t => "You waved at " ++ targetDisplay t ++ ". Wassup?",
        (none : Option MessageTone)) ∈ emotes ∧
      (parse_incoming_message 7 "/wave"
          { current_target := ChatTarget.Global, tone := MessageTone.Said }).2 =
        [chatEvent 7 ChatTarget.Global "You waved at The World. Wassup?"
          MessageTone.Said]) := by
  constructor
  · refine ⟨by decide, by decide, ?_⟩
    exact (claim_C3_amended.1 ("/yell", MessageTone.Yelled) (by decide) 7 "hi"
      { current_target := ChatTarget.User 3, tone := MessageTone.Said } (by decide)).2.1 3 rfl
  · constructor
    · simp [emotes]
    · exact claim_C3_amended.2
        ("/wave", fun t => "You waved at " ++ targetDisplay t ++ ". Wassup?", none)
        (by simp [emotes]) 7 { current_target := ChatTarget.Global, tone := MessageTone.Said }

/-- C4: a non-command, non-empty line yields exactly one broadcast whose
content is the line, targeted and toned per the context, tone unchanged. -/
theorem claim_C4 (uid : Nat) (raw : String) (ctx : ClientContext)
    (hne : strIsEmpty raw = false) (hsw : strStartsWith raw '/' = false) :
    (parse_incoming_message uid raw ctx).2.countP (hasContent raw) = 1 ∧
    (∀ m, Event.BroadcastMessage m ∈ (parse_incoming_message uid raw ctx).2 →
      m.content = raw → m.to_ = ctx.current_target ∧ m.tone = ctx.tone) ∧
    (parse_incoming_message uid raw ctx).1.tone = ctx.tone := by
  have hstep : parse_incoming_message uid raw ctx =
      finishParse uid (say_something uid raw ctx none) := by
    simp [parse_incoming_message, hne, hsw]
  rcases ht : ctx.current_target with _ | x | x
  · rw [hstep, finish_say_none_global uid raw ctx ht hne]
    refine ⟨by simp [hasContent, chatEvent], ?_, rfl⟩
    rintro m hm hc
    simp [chatEvent] at hm
    simp [hm, ht]
  · rw [hstep, finish_say_none_user uid raw ctx x ht hne]
    refine ⟨?_, ?_, rfl⟩
    · simp [hasContent, chatEvent, List.countP_cons, replyEvent,
        beq_eq_false_iff_ne, reply_content_ne]
    · rintro m hm hc
      rcases (by simpa [chatEvent, replyEvent] using hm) with hm1 | hm1
      · simp [hm1, ht]
      · rw [hm1] at hc
        exact absurd hc (reply_content_ne _ _ _)
  · rw [hstep, finish_say_none_npc uid raw ctx x ht hne]
    refine ⟨?_, ?_, rfl⟩
    · simp [hasContent, chatEvent, List.countP_cons, replyEvent,
        beq_eq_false_iff_ne, reply_content_ne]
    · rintro m hm hc
      rcases (by simpa [chatEvent, replyEvent] using hm) with hm1 | hm1
      · simp [hm1, ht]
      · rw [hm1] at hc
        exact absurd hc (reply_content_ne _ _ _)

/-- C4 witness: the theorem applied to the line \"Hello there\" with
current target `User 2` and tone Yelled. -/
theorem claim_C4_witness :
    strIsEmpty "Hello there" = false ∧ strStartsWith "Hello there" '/' = false ∧
    ((parse_incoming_message 4 "Hello there"
        { current_target := ChatTarget.User 2, tone := MessageTone.Yelled }).2.countP
          (hasContent "Hello there") = 1 ∧
      (∀ m, Event.BroadcastMessage m ∈ (parse_incoming_message 4 "Hello there"
          { current_target := ChatTarget.User 2, tone := MessageTone.Yelled }).2 →
        m.content = "Hello there" →
        m.to_ = ChatTarget.User 2 ∧ m.tone = MessageTone.Yelled) ∧
      (parse_incoming_message 4 "Hello there"
        { current_target := ChatTarget.User 2, tone := MessageTone.Yelled }).1.tone =
          MessageTone.Yelled) :=
  ⟨rfl, rfl, claim_C4 4 "Hello there"
    { current_target := ChatTarget.User 2, tone := MessageTone.Yelled } rfl rfl⟩

/-- C5: every insertion performed by `broadcast_message` leaves the
message history at `pushLog` of the old history, the history length stays
at most 100 after every insertion, and inserting into a history already
holding 100 messages evicts exactly the oldest entry and keeps the
remaining 100 in insertion order. -/
theorem claim_C5 :
    (∀ (s : TavernServer) (m : Message) (s' : TavernServer) (evs : List Event),
      broadcast_message s m = some (s', evs) →
      s'.message_log = pushLog s.message_log m) ∧
    (∀ (s : TavernServer) (m : Message) (s' : TavernServer) (evs : List Event),
      s.message_log.length ≤ MESSAGE_HISTORY_LEN →
      broadcast_message s m = some (s', evs) →
      s'.message_log.length ≤ MESSAGE_HISTORY_LEN) ∧
    (∀ (log : List Message) (m : Message), log.length = MESSAGE_HISTORY_LEN →
      pushLog log m = log.tail ++ [m] ∧
        (pushLog log m).length = MESSAGE_HISTORY_LEN) := by
  refine ⟨?_, ?_, fun log m h => pushLog_at_cap log m h⟩
  · intro s m s' evs h
    rw [broadcast_message_state s m s' evs h]
  · intro s m s' evs hlen h
    rw [broadcast_message_state s m s' evs h]
    exact pushLog_le s.message_log m hlen

/-- C5 witness: the theorem applied to a first insertion into the fresh
server and to a history of exactly 100 messages. -/
theorem claim_C5_witness :
    (∃ evs, broadcast_message TavernServer.new
        { from_ := none, to_ := ChatTarget.Global, content := "first",
          tone := MessageTone.Said } =
      some ({ TavernServer.new with message_log :=
          [{ from_ := none, to_ := ChatTarget.Global, content := "first",
             tone := MessageTone.Said }] }, evs)) ∧
    (List.replicate MESSAGE_HISTORY_LEN
        ({ from_ := none, to_ := ChatTarget.Global, content := "old",
           tone := MessageTone.Said } : Message)).length = MESSAGE_HISTORY_LEN ∧
    pushLog (List.replicate MESSAGE_HISTORY_LEN
        { from_ := none, to_ := ChatTarget.Global, content := "old",
          tone := MessageTone.Said })
        { from_ := none, to_ := ChatTarget.Global, content := "new",
          tone := MessageTone.Said } =
      (List.replicate MESSAGE_HISTORY_LEN
        ({ from_ := none, to_ := ChatTarget.Global, content := "old",
           tone := MessageTone.Said } : Message)).tail ++
        [{ from_ := none, to_ := ChatTarget.Global, content := "new",
           tone := MessageTone.Said }] := by
  refine ⟨⟨[], ?_⟩, ?_, ?_⟩
  · have h := claim_C5.1 TavernServer.new
      { from_ := none, to_ := ChatTarget.Global, content := "first",
        tone := MessageTone.Said }
    rfl
  · simp
  · exact (claim_C5.2.2 _ _ (by simp)).1

/-- C6: handling `ChangeTarget(id, to)` sends nothing and overwrites the
requesting client's current target with `to` exactly when the target is
valid (`Global` always; `User u` iff `u` is in the client table; `Npc n`
iff `n` is in the NPC table) and the requester is in the client table;
otherwise the state is completely unchanged. -/
theorem claim_C6 (s : TavernServer) (id : Nat) (to_ : ChatTarget) :
    handleEvent s (Event.ChangeTarget id to_) = some (change_target s id to_, [], true) ∧
    (target_valid s to_ = true → containsA s.clients id = true →
      change_target s id to_ = { s with clients := (updateA s.clients id
        (fun c => { c with context := { c.context with current_target := to_ } })) }) ∧
    (target_valid s to_ = false ∨ containsA s.clients id = false →
      change_target s id to_ = s) := by
  refine ⟨rfl, ?_, ?_⟩
  · intro h1 h2
    unfold change_target
    rw [if_pos (by rw [h1, h2]; rfl)]
  · intro h
    unfold change_target
    rcases h with h | h <;> rw [if_neg (by rw [h]; simp)]

/-- C6 witness: the theorem applied to a successful retarget (client 0 to
`User 1`) and to an invalid target (`Npc 3` on the fresh server). -/
theorem claim_C6_witness :
    (target_valid
        { message_log := [], npcs := [],
          clients := [(0, { writeOk := true, context := {} }),
                      (1, { writeOk := true, context := {} })],
          next_entity_id := 2, shutdown_signal := false }
        (ChatTarget.User 1) = true ∧
      change_target
        { message_log := [], npcs := [],
          clients := [(0, { writeOk := true, context := {} }),
                      (1, { writeOk := true, context := {} })],
          next_entity_id := 2, shutdown_signal := false } 0 (ChatTarget.User 1) =
        { message_log := [], npcs := [],
          clients := [(0, { writeOk := true,
                            context := { current_target := ChatTarget.User 1,
                                         tone := MessageTone.Said } }),
                      (1, { writeOk := true, context := {} })],
          next_entity_id := 2, shutdown_signal := false }) ∧
    (target_valid TavernServer.new (ChatTarget.Npc 3) = false ∧
      change_target TavernServer.new 0 (ChatTarget.Npc 3) = TavernServer.new) := by
  constructor
  · refine ⟨rfl, ?_⟩
    have h := (claim_C6
      { message_log := [], npcs := [],
        clients := [(0, { writeOk := true, context := {} }),
                    (1, { writeOk := true, context := {} })],
        next_entity_id := 2, shutdown_signal := false } 0 (ChatTarget.User 1)).2.1 rfl rfl
    rw [h]
    rfl
  · refine ⟨rfl, ?_⟩
    exact (claim_C6 TavernServer.new 0 (ChatTarget.Npc 3)).2.2 (Or.inl rfl)

/-- C7: handling a `Shutdown` event appends the final Global system
message to the history, fires the shutdown signal, leaves the client table
empty and exits the event loop: the result of `run` on `Shutdown :: rest`
does not depend on `rest`, so no further event is processed after the
handler completes. -/
theorem claim_C7 (fuel : Nat) (s : TavernServer) (rest : List Event) :
    run (fuel + 1) s (Event.Shutdown :: rest) =
      some { message_log := pushLog s.message_log shutdownMessage,
             npcs := s.npcs, clients := [], next_entity_id := s.next_entity_id,
             shutdown_signal := true } := by
  simp [run, handleEvent, broadcast_message, shutdownMessage]

/-- C8: in every state reachable by the event loop from the fresh server
the NPC table is empty — no handler or the constructor ever inserts an
`Npc` — so the `Npc`-validity check of `ChangeTarget` never passes: a
`ChangeTarget(id, Npc(n))` event leaves the state unchanged, and `/to_npc`
can never succeed. -/
theorem claim_C8 (fuel : Nat) (evs : List Event) (s : TavernServer)
    (h : run fuel TavernServer.new evs = some s) :
    s.npcs = [] ∧ ∀ (id n : Nat), change_target s id (ChatTarget.Npc n) = s := by
  have hn : s.npcs = [] := run_npcs fuel TavernServer.new evs s h
  refine ⟨hn, ?_⟩
  intro id n
  unfold change_target
  rw [if_neg]
  simp [target_valid, containsA, hn, lookupA]

/-- C8 witness: a concrete three-step run reaching a state with one
client, on which the theorem is applied. -/
theorem claim_C8_witness :
    run 3 TavernServer.new [Event.NewClient true] =
      some { message_log := [], npcs := [],
             clients := [(0, { writeOk := true, context := {} })],
             next_entity_id := 1, shutdown_signal := false } ∧
    ({ message_log := [], npcs := [],
       clients := [(0, { writeOk := true, context := {} })],
       next_entity_id := 1, shutdown_signal := false } : TavernServer).npcs = [] ∧
    change_target
      { message_log := [], npcs := [],
        clients := [(0, { writeOk := true, context := {} })],
        next_entity_id := 1, shutdown_signal := false } 0 (ChatTarget.Npc 3) =
      { message_log := [], npcs := [],
        clients := [(0, { writeOk := true, context := {} })],
        next_entity_id := 1, shutdown_signal := false } := by
  refine ⟨rfl, ?_, ?_⟩
  · exact (claim_C8 3 [Event.NewClient true] _ rfl).1
  · exact (claim_C8 3 [Event.NewClient true] _ rfl).2 0 3

/-- C9: every parser reply — among them the \"Unknown command.\" reply,
the `/to_user` and `/to_npc` usage errors (pinned exactly below) and the
private acknowledgement — is emitted as a `BroadcastMessage` with no
sender (`from = None`), destination `User(sender)`, and content equal to
the reply text followed by a newline and the tone-word prompt; and
`broadcast_message` of any `User`-addressed message appends it to the
bounded history exactly like ordinary chat. -/
theorem claim_C9 :
    (∀ (uid : Nat) (raw : String) (ctx : ClientContext),
      ∀ e ∈ (parse_incoming_message uid raw ctx).2, isReplyBroadcast e = true →
        ∃ r, e = replyEvent uid r (parse_incoming_message uid raw ctx).1.tone) ∧
    (∀ (uid : Nat) (ctx : ClientContext),
      parse_incoming_message uid "/to_user abc" ctx =
        (ctx, [replyEvent uid "Invalid target. please use /to_user <id>" ctx.tone]) ∧
      parse_incoming_message uid "/to_npc abc" ctx =
        (ctx, [replyEvent uid "Invalid target. please use /to_npc <id>" ctx.tone]) ∧
      parse_incoming_message uid "/frobnicate" ctx =
        (ctx, [replyEvent uid "Unknown command." ctx.tone])) ∧
    (∀ (s : TavernServer) (m : Message) (u : Nat), m.to_ = ChatTarget.User u →
      ∃ evs, broadcast_message s m =
        some ({ s with message_log := pushLog s.message_log m }, evs)) := by
  refine ⟨?_,
    fun uid ctx => ⟨parse_to_user_bad uid ctx, parse_to_npc_bad uid ctx, parse_unknown uid ctx⟩,
    fun s m u hu => broadcast_message_user s m u hu⟩
  intro uid raw ctx e he hr
  rcases hemp : strIsEmpty raw with _ | _
  · rcases hsw : strStartsWith raw '/' with _ | _
    · have hp : parse_incoming_message uid raw ctx =
          finishParse uid (say_something uid raw ctx none) := by
        simp [parse_incoming_message, hemp, hsw]
      rw [hp] at he ⊢
      rcases hrep : (say_something uid raw ctx none).2.2 with _ | r
      · simp [finishParse, hrep] at he
        have := say_something_events uid raw ctx none e he
        rw [hr] at this
        simp at this
      · simp [finishParse, hrep] at he ⊢
        rcases he with he | rfl
        · have := say_something_events uid raw ctx none e he
          rw [hr] at this
          simp at this
        · exact ⟨r, rfl⟩
    · have hp : parse_incoming_message uid raw ctx =
          finishParse uid (dispatchCommand uid (lowerStr (splitCmd raw).1)
            (splitCmd raw).2 ctx) := by
        simp [parse_incoming_message, hemp, hsw]
      rw [hp] at he ⊢
      rcases hrep : (dispatchCommand uid (lowerStr (splitCmd raw).1)
          (splitCmd raw).2 ctx).2.2 with _ | r
      · simp [finishParse, hrep] at he
        have := dispatch_events uid _ _ ctx e he
        rw [hr] at this
        simp at this
      · simp [finishParse, hrep] at he ⊢
        rcases he with he | rfl
        · have := dispatch_events uid _ _ ctx e he
          rw [hr] at this
          simp at this
        · exact ⟨r, rfl⟩
  · simp [parse_incoming_message, hemp] at he

/-- C9 witness: the theorem applied to the \"Unknown command.\" reply of
`/frobnicate` and to the history append of a concrete reply message. -/
theorem claim_C9_witness :
    (isReplyBroadcast (replyEvent 2 "Unknown command." MessageTone.Said) = true ∧
      ∃ r, replyEvent 2 "Unknown command." MessageTone.Said =
        replyEvent 2 r (parse_incoming_message 2 "/frobnicate" {}).1.tone) ∧
    (∃ evs, broadcast_message TavernServer.new
        { from_ := none, to_ := ChatTarget.User 2,
          content := "Unknown command.", tone := MessageTone.Said } =
      some ({ TavernServer.new with
          message_log := pushLog TavernServer.new.message_log
            { from_ := none, to_ := ChatTarget.User 2,
              content := "Unknown command.", tone := MessageTone.Said } }, evs)) := by
  constructor
  · refine ⟨rfl, ?_⟩
    exact claim_C9.1 2 "/frobnicate" {}
      (replyEvent 2 "Unknown command." MessageTone.Said) (by decide) rfl
  · exact claim_C9.2.2 TavernServer.new _ 2 rfl

/-- C10: a successful `ChangeTarget(id, to)` modifies only the requesting
client's `current_target`: the message history, NPC table, next-id
counter, shutdown signal, every other client's entry, and the requester's
own tone and write half are all unchanged, while the requester's current
target becomes `to`. -/
theorem claim_C10 (s : TavernServer) (id : Nat) (to_ : ChatTarget)
    (h1 : target_valid s to_ = true) (h2 : containsA s.clients id = true) :
    (change_target s id to_).message_log = s.message_log ∧
    (change_target s id to_).npcs = s.npcs ∧
    (change_target s id to_).next_entity_id = s.next_entity_id ∧
    (change_target s id to_).shutdown_signal = s.shutdown_signal ∧
    (∀ k, k ≠ id → lookupA (change_target s id to_).clients k = lookupA s.clients k) ∧
    (lookupA (change_target s id to_).clients id).map (fun c => c.context.tone) =
      (lookupA s.clients id).map (fun c => c.context.tone) ∧
    (lookupA (change_target s id to_).clients id).map (fun c => c.writeOk) =
      (lookupA s.clients id).map (fun c => c.writeOk) ∧
    (lookupA (change_target s id to_).clients id).map
        (fun c => c.context.current_target) = some to_ := by
  have hct : change_target s id to_ = { s with clients := (updateA s.clients id
      (fun c => { c with context := { c.context with current_target := to_ } })) } := by
    unfold change_target
    rw [if_pos (by rw [h1, h2]; rfl)]
  rw [hct]
  obtain ⟨c, hc⟩ : ∃ c, lookupA s.clients id = some c := by
    unfold containsA at h2
    rcases hl : lookupA s.clients id with _ | c
    · rw [hl] at h2; simp at h2
    · exact ⟨c, rfl⟩
  refine ⟨rfl, rfl, rfl, rfl, ?_, ?_, ?_, ?_⟩
  · intro k hk
    exact lookupA_updateA_ne s.clients id k _ hk
  · rw [lookupA_updateA_self, hc]
    rfl
  · rw [lookupA_updateA_self, hc]
    rfl
  · rw [lookupA_updateA_self, hc]
    rfl

/-- C10 witness: the theorem applied to a concrete two-client state,
checking the requester's tone survives a successful retarget. -/
theorem claim_C10_witness :
    target_valid
        { message_log := [], npcs := [],
          clients := [(0, { writeOk := true,
                            context := { current_target := ChatTarget.Global,
                                         tone := MessageTone.Yelled } }),
                      (1, { writeOk := false, context := {} })],
          next_entity_id := 7, shutdown_signal := false }
        ChatTarget.Global = true ∧
    containsA
        ([(0, { writeOk := true,
                context := { current_target := ChatTarget.Global,
                             tone := MessageTone.Yelled } }),
          (1, { writeOk := false, context := {} })] : List (Nat × Client)) 0 = true ∧
    (lookupA (change_target
        { message_log := [], npcs := [],
          clients := [(0, { writeOk := true,
                            context := { current_target := ChatTarget.Global,
                                         tone := MessageTone.Yelled } }),
                      (1, { writeOk := false, context := {} })],
          next_entity_id := 7, shutdown_signal := false } 0 ChatTarget.Global).clients 0).map
      (fun c => c.context.tone) = some MessageTone.Yelled := by
  refine ⟨rfl, rfl, ?_⟩
  have h := (claim_C10
    { message_log := [], npcs := [],
      clients := [(0, { writeOk := true,
                        context := { current_target := ChatTarget.Global,
                                     tone := MessageTone.Yelled } }),
                  (1, { writeOk := false, context := {} })],
      next_entity_id := 7, shutdown_signal := false } 0 ChatTarget.Global rfl rfl).2.2.2.2.2.1
  rw [h]
  rfl
